import Mathlib

/-!
Shallow embedding of the entity upsert / graph-consistency layer of the
arrgh-fastapi repository (src/src/graph/neo4j_client.py,
src/src/processors/entity_extractor.py, src/src/workflows/newsletter_processor.py),
together with theorems checking the natural-language specification against it.

Conventions of the embedding:
* Python floats (confidence values, validated into [0,1] by pydantic) are
  modelled as rationals: the code only compares them and takes maxima.
* `datetime()` timestamps are modelled as natural numbers supplied per query.
* The Neo4j graph is modelled as association lists of nodes and a list of
  relationship records; a Cypher MERGE becomes lookup-then-insert/update in a
  single step, mirroring the atomic match-or-create semantics.
* Cypher three-valued logic matters in one place: reading an absent node
  property yields NULL, any comparison with NULL yields NULL, and a CASE
  branch whose condition is not true falls through to ELSE.  The helper
  `cypherCaseEq` encodes exactly this.
-/

set_option linter.unusedVariables false

namespace Arrgh

/-- Mirrors the pydantic model `Entity` in src/src/models/newsletter.py:
an extracted candidate entity. `properties` (a `Dict[str, Any]`) is modelled
as a key-value list of strings. -/
structure Entity where
  name : String
  type : String
  aliases : List String := []
  confidence : Rat
  context : Option String := none
  properties : List (String × String) := []
  deriving DecidableEq, Repr

/-- A stored entity node, as written by `create_or_update_entity`.
`last_seen` is an `Option` because the ON CREATE branch of the source query
never sets it: a freshly created node has no `last_seen` property (NULL). -/
structure EntityNode where
  created_at : Nat
  last_seen : Option Nat
  confidence : Rat
  aliases : List String
  mention_count : Nat
  properties_json : Option String
  deriving DecidableEq, Repr

/-- A stored newsletter node, as written by `create_newsletter_node`. -/
structure NewsletterNode where
  subject : String
  sender : String
  received_date : Option String
  created_at : Nat
  content_length : Nat
  deriving DecidableEq, Repr

/-- A MENTIONED_IN relationship record (entity → newsletter). -/
structure MentionEdge where
  etype : String
  ename : String
  nid : String
  date : Nat
  context : Option String
  deriving DecidableEq, Repr

/-- The graph store: entity nodes keyed by (label, name), newsletter nodes
keyed by id, and the MENTIONED_IN relationships. -/
structure Graph where
  entities : List ((String × String) × EntityNode) := []
  newsletters : List (String × NewsletterNode) := []
  mentions : List MentionEdge := []
  deriving DecidableEq, Repr

/-- Association-list lookup for entity nodes (first match wins, as a keyed
MERGE matches the unique node with that label and name). -/
def lookupEnt (l : List ((String × String) × EntityNode)) (k : String × String) :
    Option EntityNode :=
  match l with
  | [] => none
  | (k', v) :: rest => if k' = k then some v else lookupEnt rest k

/-- Replace the value stored at key `k` (no-op when the key is absent). -/
def updateEnt (l : List ((String × String) × EntityNode)) (k : String × String)
    (v : EntityNode) : List ((String × String) × EntityNode) :=
  match l with
  | [] => []
  | (k', v') :: rest =>
      if k' = k then (k', v) :: rest else (k', v') :: updateEnt rest k v

/-- Association-list lookup for newsletter nodes. -/
def lookupNl (l : List (String × NewsletterNode)) (nid : String) :
    Option NewsletterNode :=
  match l with
  | [] => none
  | (k', v) :: rest => if k' = nid then some v else lookupNl rest nid

/-- `json.dumps(entity.properties) if entity.properties else None` from
`create_or_update_entity`: an empty dict is falsy and serialises to NULL;
otherwise the dict is serialised to a string. -/
def propsJson (e : Entity) : Option String :=
  match e.properties with
  | [] => none
  | ps => some (String.intercalate "," (ps.map (fun p => p.1 ++ ":" ++ p.2)))

/-- Cypher semantics of `CASE WHEN a = b THEN x ELSE y END` where `a` is a
present property and `b` may be NULL: a comparison with NULL is NULL, and a
CASE condition that is not true selects the ELSE branch.  So the condition
counts as true only when `b` is present and equal to `a`. -/
def cypherCaseEq (a : Nat) (b : Option Nat) : Bool :=
  match b with
  | none => false
  | some b' => a == b'

/-- The record returned by one upsert: the post-SET node and the `operation`
string computed by the query's RETURN clause. -/
structure UpsertRecord where
  node : EntityNode
  operation : String
  deriving DecidableEq, Repr

/-- Embedding of `Neo4jClient.create_or_update_entity`
(src/src/graph/neo4j_client.py lines 400-433).  The MERGE keyed on
(label `entity.type`, property `name`) either creates the node (ON CREATE SET:
created_at, confidence, aliases, mention_count = 1, properties_json — note
that `last_seen` is NOT set) or updates it (ON MATCH SET: last_seen,
mention_count + 1, confidence raised to the candidate confidence when that is
strictly greater).  The RETURN clause computes
`CASE WHEN e.created_at = e.last_seen THEN 'created' ELSE 'updated' END`
on the post-SET node. -/
def create_or_update_entity (g : Graph) (now : Nat) (e : Entity) :
    UpsertRecord × Graph :=
  let key := (e.type, e.name)
  match lookupEnt g.entities key with
  | none =>
      let node : EntityNode :=
        { created_at := now
          last_seen := none
          confidence := e.confidence
          aliases := e.aliases
          mention_count := 1
          properties_json := propsJson e }
      let op := if cypherCaseEq node.created_at node.last_seen
                then "created" else "updated"
      (⟨node, op⟩, { g with entities := (key, node) :: g.entities })
  | some old =>
      let node : EntityNode :=
        { old with
          last_seen := some now
          mention_count := old.mention_count + 1
          confidence :=
            if e.confidence > old.confidence then e.confidence
            else old.confidence }
      let op := if cypherCaseEq node.created_at node.last_seen
                then "created" else "updated"
      (⟨node, op⟩, { g with entities := updateEnt g.entities key node })

/-- The node produced by the ON MATCH branch of `create_or_update_entity`:
`last_seen` refreshed, `mention_count` incremented, `confidence` raised to
the maximum of old and candidate, every other field untouched. -/
def matchedNode (old : EntityNode) (now : Nat) (e : Entity) : EntityNode :=
  { old with
      last_seen := some now
      mention_count := old.mention_count + 1
      confidence := max old.confidence e.confidence }

/-- Embedding of `Neo4jClient.create_newsletter_node` (lines 435-457):
`MERGE (n:Newsletter {id: $newsletter_id}) ON CREATE SET ... RETURN n`.
A matched node is returned unchanged (ON CREATE only); a fresh id creates
the node. -/
def create_newsletter_node (g : Graph) (now : Nat) (nid : String)
    (subject sender : String) (received : Option String) (clen : Nat) :
    Option NewsletterNode × Graph :=
  match lookupNl g.newsletters nid with
  | some n => (some n, g)
  | none =>
      let n : NewsletterNode :=
        { subject := subject
          sender := sender
          received_date := received
          created_at := now
          content_length := clen }
      (some n, { g with newsletters := (nid, n) :: g.newsletters })

/-- First MENTIONED_IN relationship between the given entity and newsletter,
if any. -/
def findEdge (l : List MentionEdge) (etype ename nid : String) :
    Option MentionEdge :=
  match l with
  | [] => none
  | r :: rest =>
      if r.etype = etype ∧ r.ename = ename ∧ r.nid = nid then some r
      else findEdge rest etype ename nid

/-- Embedding of `Neo4jClient.link_entity_to_newsletter` (lines 459-479):
two MATCH clauses (entity node, newsletter node) followed by
`MERGE (e)-[r:MENTIONED_IN]->(n) ON CREATE SET r.date = datetime(),
r.context = $context RETURN r`.  When either MATCH finds nothing the query
returns no rows and the graph is untouched; when the relationship already
exists the MERGE matches it and ON CREATE is skipped. -/
def link_entity_to_newsletter (g : Graph) (now : Nat)
    (ename etype nid : String) (context : Option String) :
    Option MentionEdge × Graph :=
  match lookupEnt g.entities (etype, ename), lookupNl g.newsletters nid with
  | some _, some _ =>
      match findEdge g.mentions etype ename nid with
      | some r => (some r, g)
      | none =>
          let r : MentionEdge :=
            { etype := etype, ename := ename, nid := nid
              date := now, context := context }
          (some r, { g with mentions := r :: g.mentions })
  | _, _ => (none, g)

/-- Number of MENTIONED_IN relationships between a given entity and a given
newsletter. -/
def mentionCount (g : Graph) (etype ename nid : String) : Nat :=
  (g.mentions.filter
    (fun r => r.etype == etype && r.ename == ename && r.nid == nid)).length

/-! ## Retry wrapper (neo4j_client.py lines 18-88)

The wrapped operation is modelled as a function from the attempt index to an
`Except` outcome, so that each invocation of the decorated function can
succeed or raise independently.  The trace records the value returned or the
exception finally re-raised, how many times the operation was invoked, and
how many times `time.sleep` ran.  `result = none` corresponds to the dead
`raise Exception("Unexpected error in retry logic ...")` after the loop. -/

/-- Observable trace of one call of the retry wrapper. -/
structure RetryTrace (ε α : Type) where
  result : Option (Except ε α)
  calls : Nat
  sleeps : Nat
  deriving Repr

/-- The while-loop of `retry_with_exponential_backoff`'s `wrapper`, entered
with the given `attempt` counter.  `fuel` is the number of loop iterations
still allowed by the guard `attempt <= max_retries`, i.e.
`max_retries + 1 - attempt`; when it is 0 the guard fails and control falls
through to the unreachable final raise.  The loop body calls the function,
returns on success, and on an exception increments `attempt`, re-raises when
`attempt > max_retries`, and otherwise sleeps and iterates. -/
def retryAux {ε α : Type} (f : Nat → Except ε α) (maxRetries : Nat) :
    Nat → Nat → RetryTrace ε α
  | _attempt, 0 => ⟨none, 0, 0⟩
  | attempt, fuel + 1 =>
      match f attempt with
      | Except.ok a => ⟨some (Except.ok a), 1, 0⟩
      | Except.error e =>
          if attempt + 1 > maxRetries then ⟨some (Except.error e), 1, 0⟩
          else
            let t := retryAux f maxRetries (attempt + 1) fuel
            ⟨t.result, t.calls + 1, t.sleeps + 1⟩

/-- Embedding of the decorator `retry_with_exponential_backoff`: the wrapper
starts with `attempt = 0`, so the loop guard admits `max_retries + 1`
iterations. -/
def retry_with_exponential_backoff {ε α : Type} (maxRetries : Nat)
    (f : Nat → Except ε α) : RetryTrace ε α :=
  retryAux f maxRetries 0 (maxRetries + 1)

/-! ## connect() (neo4j_client.py lines 132-290)

`connect` runs four phases in order: DNS resolution (`socket.getaddrinfo`,
failure returns False), a raw TCP probe to the first resolved address
(failure returns False; an empty address list raises IndexError inside the
same try, also returning False), driver creation under a retry policy
(failure returns False), and a round-trip test query under a second retry
policy (failure returns False).  The environment supplies each phase's
outcome; the embedding returns the boolean result and, in order, the phases
that were actually attempted. -/

/-- The four observable phases of `connect`. -/
inductive ConnectPhase where
  | dns
  | tcp
  | driver
  | testQuery
  deriving DecidableEq, Repr

/-- Outcomes of the four phases of `connect`, supplied by the environment
(network, driver library, server). -/
structure ConnectEnv where
  dns : Except String (List String)
  tcp : Except String Unit
  driverCreate : Except String Unit
  testQuery : Except String Unit

/-- Embedding of `Neo4jClient.connect`. -/
def connect (env : ConnectEnv) : Bool × List ConnectPhase :=
  match env.dns with
  | Except.error _ => (false, [ConnectPhase.dns])
  | Except.ok ips =>
      let tcpR := if ips.isEmpty then Except.error "IndexError" else env.tcp
      match tcpR with
      | Except.error _ => (false, [ConnectPhase.dns, ConnectPhase.tcp])
      | Except.ok _ =>
          match env.driverCreate with
          | Except.error _ =>
              (false, [ConnectPhase.dns, ConnectPhase.tcp, ConnectPhase.driver])
          | Except.ok _ =>
              match env.testQuery with
              | Except.error _ =>
                  (false, [ConnectPhase.dns, ConnectPhase.tcp,
                           ConnectPhase.driver, ConnectPhase.testQuery])
              | Except.ok _ =>
                  (true, [ConnectPhase.dns, ConnectPhase.tcp,
                          ConnectPhase.driver, ConnectPhase.testQuery])

/-! ## Entity extraction post-processing (entity_extractor.py lines 139-167)

After parsing the LLM response, the source loops over the parsed candidate
list, skipping (`continue`) every candidate whose confidence is below
`ENTITY_CONFIDENCE_THRESHOLD`, and then, if more than
`MAX_ENTITIES_PER_NEWSLETTER` remain, sorts the survivors by confidence
descending (Python `sorted` with `reverse=True`, a stable sort) and keeps the
first `MAX_ENTITIES_PER_NEWSLETTER`. -/

/-- The candidate loop of `extract_entities`: keep the candidates whose
confidence is not below the threshold, in order. -/
def buildEntities (thr : Rat) : List Entity → List Entity
  | [] => []
  | c :: rest =>
      if c.confidence < thr then buildEntities thr rest
      else c :: buildEntities thr rest

/-- Stable sort by confidence descending, the embedding of
`sorted(entities, key=lambda e: e.confidence, reverse=True)`. -/
def sortByConfDesc (l : List Entity) : List Entity :=
  l.mergeSort (fun a b => b.confidence ≤ a.confidence)

/-- The truncation step of `extract_entities`: when more than `maxE`
entities survive the confidence filter, keep the `maxE` with the highest
confidence. -/
def capEntities (maxE : Nat) (l : List Entity) : List Entity :=
  if l.length > maxE then (sortByConfDesc l).take maxE else l

/-- Both post-processing steps of `extract_entities`, in source order:
confidence filter, then count cap. -/
def postprocessCandidates (thr : Rat) (maxE : Nat) (l : List Entity) :
    List Entity :=
  capEntities maxE (buildEntities thr l)

/-- The ways the extractor call can turn out, as distinguished by
`extract_entities`: the OpenAI client was never initialised (returns []);
the call raised (caught by the generic except, returns []); the response
could not be parsed as JSON (caught, returns []); or a candidate list was
parsed. -/
inductive ExtractorOutcome where
  | noClient
  | throws (msg : String)
  | unparseable (raw : String)
  | parsed (candidates : List Entity)
  deriving Repr

/-- Embedding of `EntityExtractor.extract_entities` (lines 70-178): every
failure mode is caught inside the method and yields the empty list; a parsed
candidate list goes through the confidence filter and the count cap. -/
def extract_entities (thr : Rat) (maxE : Nat) (o : ExtractorOutcome) :
    List Entity :=
  match o with
  | ExtractorOutcome.noClient => []
  | ExtractorOutcome.throws _ => []
  | ExtractorOutcome.unparseable _ => []
  | ExtractorOutcome.parsed l => postprocessCandidates thr maxE l

/-! ## execute_query (neo4j_client.py lines 352-364)

`execute_query` returns None after logging "No Neo4j connection" when no
driver exists, and otherwise runs the query once (there is no retry
decorator on it).  A raised query error is caught and logged with
`query=query[:100]` and `error=str(e)`; the parameter values are not part of
the log record.  The session is modelled as a function from query text and
parameters to an `Except` row list. -/

/-- One structured log record emitted by `execute_query`: the message, the
query text included in the record (truncated by the source to 100
characters), and the stringified exception.  There is no field for the
parameter values: the source never logs them. -/
structure QueryLog where
  message : String
  queryText : Option String
  errorText : Option String
  deriving DecidableEq, Repr

/-- Python string slicing `s[:n]`: the first `n` characters. -/
def pyTruncate (s : String) (n : Nat) : String :=
  String.mk (s.toList.take n)

/-- Outcome of one `execute_query` call: the rows returned (None on any
failure), the log records emitted, and how many times the session ran the
query. -/
structure ExecOutcome (ρ : Type) where
  rows : Option ρ
  logs : List QueryLog
  dbCalls : Nat
  deriving Repr

/-- Embedding of `Neo4jClient.execute_query`. -/
def execute_query {ρ : Type}
    (hasDriver : Bool)
    (run : String → List (String × String) → Except String ρ)
    (query : String) (params : List (String × String)) : ExecOutcome ρ :=
  if hasDriver = false then
    ⟨none, [⟨"No Neo4j connection", none, none⟩], 0⟩
  else
    match run query params with
    | Except.ok rows => ⟨some rows, [], 1⟩
    | Except.error e =>
        ⟨none, [⟨"Query execution failed", some (pyTruncate query 100), some e⟩], 1⟩

/-! ## The processing pipeline (newsletter_processor.py lines 54-194)

`process_newsletter` cleans the HTML (an empty result is an error response),
extracts entities (every extractor failure already became an empty list
inside `extract_entities`), creates the newsletter node (a falsy result only
appends "Failed to create newsletter node" to the error list and processing
continues), then for each extracted entity upserts the node, counts it as
created or updated from the returned `operation` string, links it to the
newsletter, and bumps the per-type summary.  The success response carries the
accumulated error list.

The environment carries the collaborator outcomes: the cleaned text produced
by `clean_html_content`, whether the lazily constructed extractor object
exists, the extractor outcome, and an injected query failure for the
newsletter-node MERGE (modelling a store error on that one statement).  The
per-entity upserts run against the graph model directly; the per-entity
`try/except` arm of the source is not exercised because the embedded graph
operations are total, matching the source where `execute_query` catches all
store exceptions internally. -/

/-- Collaborator outcomes for one pipeline run. -/
structure PipeEnv where
  cleanedText : String
  extractorInit : Bool
  extractor : ExtractorOutcome
  failNewsletterCreate : Bool

/-- The response fields of `NewsletterProcessingResponse` that the embedding
tracks (timing and the human-readable summary string are omitted). -/
structure Resp where
  status : String
  entities_extracted : Nat
  entities_new : Nat
  entities_updated : Nat
  entity_summary : List (String × Nat)
  errors : List String
  deriving DecidableEq, Repr

/-- The initial per-type summary dict literal of Step 4. -/
def initialSummary : List (String × Nat) :=
  [("Organization", 0), ("Person", 0), ("Product", 0),
   ("Event", 0), ("Location", 0), ("Topic", 0)]

/-- `entity_summary[t] = entity_summary.get(t, 0) + 1`: bump the count for
key `t`, inserting it when absent. -/
def bumpSummary (s : List (String × Nat)) (t : String) : List (String × Nat) :=
  match s with
  | [] => [(t, 1)]
  | (k, v) :: rest =>
      if k = t then (k, v + 1) :: rest else (k, v) :: bumpSummary rest t

/-- One iteration of the Step 4 loop: upsert the entity, classify it as
created or updated from the returned operation string, link it to the
newsletter, bump the summary. -/
def stepEntity (nid : String) (now : Nat)
    (acc : Graph × Nat × Nat × List (String × Nat)) (e : Entity) :
    Graph × Nat × Nat × List (String × Nat) :=
  let (g, newC, updC, summ) := acc
  let (rec, g1) := create_or_update_entity g now e
  let (newC', updC') :=
    if rec.operation = "created" then (newC + 1, updC) else (newC, updC + 1)
  let (_, g2) := link_entity_to_newsletter g1 now e.name e.type nid e.context
  (g2, newC', updC', bumpSummary summ e.type)

/-- `_create_error_response`: status "error", zero created/updated counts, an
empty summary, and the errors accumulated so far. -/
def errorResponse (extracted : Nat) (errs : List String) : Resp :=
  { status := "error"
    entities_extracted := extracted
    entities_new := 0
    entities_updated := 0
    entity_summary := []
    errors := errs }

/-- Embedding of `NewsletterProcessor.process_newsletter`.  `nid` stands for
the freshly generated UUID and `now` for the shared query timestamp of the
run; `subject`, `sender`, `received` and `clen` are the newsletter fields
passed to `create_newsletter_node`. -/
def process_newsletter (thr : Rat) (maxE : Nat) (env : PipeEnv) (g : Graph)
    (nid : String) (now : Nat) (subject sender : String)
    (received : Option String) (clen : Nat) : Resp × Graph :=
  if env.cleanedText = "" then
    (errorResponse 0 ["Failed to clean HTML content"], g)
  else if env.extractorInit = false then
    (errorResponse 0 ["Entity extractor not initialized"], g)
  else
    let extracted := extract_entities thr maxE env.extractor
    let (nodeOpt, g1) :=
      if env.failNewsletterCreate then (none, g)
      else create_newsletter_node g now nid subject sender received clen
    let errs :=
      if nodeOpt.isNone then ["Failed to create newsletter node"] else []
    let (g2, newC, updC, summ) :=
      extracted.foldl (stepEntity nid now) (g1, 0, 0, initialSummary)
    ({ status := "success"
       entities_extracted := extracted.length
       entities_new := newC
       entities_updated := updC
       entity_summary := summ
       errors := errs }, g2)

/-! ## Concrete fixtures used to instantiate the theorems below -/

/-- The rational 3/4, given by its reduced numerator and denominator so that
kernel reduction (`decide`) can evaluate it. -/
def q34 : Rat := ⟨3, 4, by decide, by decide⟩

/-- The rational 1/2 as a reduced literal. -/
def q12 : Rat := ⟨1, 2, by decide, by decide⟩

/-- The rational 7/10 as a reduced literal. -/
def q710 : Rat := ⟨7, 10, by decide, by decide⟩

/-- The rational 9/10 as a reduced literal. -/
def q910 : Rat := ⟨9, 10, by decide, by decide⟩

/-- A candidate organisation entity. -/
def entOrg : Entity :=
  { name := "OpenAI", type := "Organization", confidence := q34 }

/-- A stored organisation node with three prior mentions. -/
def nodeOrg : EntityNode :=
  { created_at := 1, last_seen := some 2, confidence := q12, aliases := ["OAI"]
    mention_count := 3, properties_json := some "k:v" }

/-- A graph holding just `nodeOrg`. -/
def gOrg : Graph :=
  { entities := [(("Organization", "OpenAI"), nodeOrg)] }

/-- First sighting of a person candidate. -/
def entAda1 : Entity :=
  { name := "Ada", type := "Person", aliases := ["A"], confidence := q710 }

/-- Second sighting of the same person with a higher confidence. -/
def entAda2 : Entity :=
  { name := "Ada", type := "Person", aliases := ["B"], confidence := q910
    context := some "ctx" }

/-- A stored newsletter node. -/
def nlNode : NewsletterNode :=
  { subject := "s", sender := "f", received_date := none, created_at := 0
    content_length := 3 }

/-- A graph holding `nodeOrg` and one newsletter, with no relationships. -/
def gLink : Graph :=
  { entities := [(("Organization", "OpenAI"), nodeOrg)]
    newsletters := [("N1", nlNode)] }

/-- A connect environment whose DNS resolution raises `socket.gaierror`. -/
def envDnsFail : ConnectEnv :=
  { dns := Except.error "gaierror", tcp := Except.ok ()
    driverCreate := Except.ok (), testQuery := Except.ok () }

/-- A session that raises on every query. -/
def runFail : String → List (String × String) → Except String Nat :=
  fun _ _ => Except.error "SyntaxError"

/-- A concrete Cypher query text. -/
def qFix : String := "MATCH (n) RETURN n"

/-- Concrete query parameters, standing in for possibly sensitive values. -/
def pFix : List (String × String) := [("name", "OpenAI")]

/-- A candidate below the 0.7 confidence threshold. -/
def entLow : Entity := { name := "Rust", type := "Topic", confidence := q12 }

/-- A candidate list with one below-threshold entry and three keepers. -/
def lFix : List Entity := [entOrg, entLow, entAda2, entAda1]

/-- A pipeline run whose extractor call raises. -/
def envThrow : PipeEnv :=
  { cleanedText := "text", extractorInit := true
    extractor := ExtractorOutcome.throws "boom", failNewsletterCreate := false }

/-- A pipeline run with parsed candidates whose newsletter-node MERGE fails. -/
def envNlFail : PipeEnv :=
  { cleanedText := "text", extractorInit := true
    extractor := ExtractorOutcome.parsed [entOrg, entAda1]
    failNewsletterCreate := true }

/-! ## Helper lemmas -/

theorem lookupEnt_updateEnt_self (l : List ((String × String) × EntityNode))
    (k : String × String) (v old : EntityNode)
    (h : lookupEnt l k = some old) :
    lookupEnt (updateEnt l k v) k = some v := by
  induction l with
  | nil => simp [lookupEnt] at h
  | cons hd tl ih =>
      obtain ⟨k', v'⟩ := hd
      by_cases hk : k' = k
      · simp [updateEnt, lookupEnt, hk]
      · simp only [updateEnt, lookupEnt, if_neg hk] at h ⊢
        exact ih h

theorem lookupEnt_updateEnt_isSome (l : List ((String × String) × EntityNode))
    (k key : String × String) (v : EntityNode)
    (h : (lookupEnt l k).isSome) :
    (lookupEnt (updateEnt l key v) k).isSome := by
  induction l with
  | nil => simp [lookupEnt] at h
  | cons hd tl ih =>
      obtain ⟨k', v'⟩ := hd
      by_cases hkey : k' = key
      · subst hkey
        by_cases hk : k' = k
        · simp [updateEnt, lookupEnt, hk]
        · simp only [updateEnt, lookupEnt, if_pos rfl, if_neg hk] at h ⊢
          exact h
      · by_cases hk : k' = k
        · subst hk
          simp [updateEnt, lookupEnt, hkey]
        · simp only [updateEnt, lookupEnt, if_neg hk, if_neg hkey] at h ⊢
          exact ih h

/-- The source expression `CASE WHEN $confidence > e.confidence THEN
$confidence ELSE e.confidence END` is the maximum of the two. -/
theorem if_gt_eq_max (a b : Rat) : (if b > a then b else a) = max a b := by
  rcases le_or_lt b a with h | h
  · simp [not_lt.mpr h, max_eq_left h]
  · simp [h, max_eq_right (le_of_lt h)]

/-- Characterisation of the upsert on a fresh key: the ON CREATE branch,
including the fact that the returned operation string is "updated" because
`last_seen` is never set there and the CASE comparison with NULL selects the
ELSE branch. -/
theorem upsert_fresh (g : Graph) (now : Nat) (e : Entity)
    (h : lookupEnt g.entities (e.type, e.name) = none) :
    create_or_update_entity g now e =
      (⟨⟨now, none, e.confidence, e.aliases, 1, propsJson e⟩, "updated"⟩,
       { g with entities :=
          ((e.type, e.name),
           (⟨now, none, e.confidence, e.aliases, 1, propsJson e⟩ : EntityNode))
          :: g.entities }) := by
  simp [create_or_update_entity, h, cypherCaseEq]

/-- Characterisation of the upsert on an existing key: the ON MATCH branch. -/
theorem upsert_matched (g : Graph) (now : Nat) (e : Entity) (old : EntityNode)
    (h : lookupEnt g.entities (e.type, e.name) = some old) :
    create_or_update_entity g now e =
      (⟨matchedNode old now e,
        if old.created_at == now then "created" else "updated"⟩,
       { g with entities :=
          updateEnt g.entities (e.type, e.name) (matchedNode old now e) }) := by
  simp only [create_or_update_entity, h, cypherCaseEq, matchedNode,
    if_gt_eq_max]

/-- The upsert never touches newsletter nodes. -/
theorem upsert_newsletters (g : Graph) (now : Nat) (e : Entity) :
    ((create_or_update_entity g now e).2).newsletters = g.newsletters := by
  cases h : lookupEnt g.entities (e.type, e.name) <;>
    simp [create_or_update_entity, h]

/-- The upsert never touches MENTIONED_IN relationships. -/
theorem upsert_mentions (g : Graph) (now : Nat) (e : Entity) :
    ((create_or_update_entity g now e).2).mentions = g.mentions := by
  cases h : lookupEnt g.entities (e.type, e.name) <;>
    simp [create_or_update_entity, h]

/-- After an upsert the upserted key is present and stores the returned
node. -/
theorem lookupEnt_upsert_self (g : Graph) (now : Nat) (e : Entity) :
    lookupEnt ((create_or_update_entity g now e).2).entities (e.type, e.name)
      = some ((create_or_update_entity g now e).1).node := by
  cases h : lookupEnt g.entities (e.type, e.name) with
  | none => simp [create_or_update_entity, h, lookupEnt]
  | some old =>
      simp only [create_or_update_entity, h]
      exact lookupEnt_updateEnt_self _ _ _ _ h

/-- An upsert never removes an entity key. -/
theorem lookupEnt_upsert_isSome (g : Graph) (now : Nat) (e : Entity)
    (k : String × String) (h : (lookupEnt g.entities k).isSome) :
    (lookupEnt ((create_or_update_entity g now e).2).entities k).isSome := by
  cases hl : lookupEnt g.entities (e.type, e.name) with
  | none =>
      simp only [create_or_update_entity, hl, lookupEnt]
      by_cases hk : (e.type, e.name) = k
      · simp [hk]
      · simp only [if_neg hk]
        exact h
  | some old =>
      simp only [create_or_update_entity, hl]
      exact lookupEnt_updateEnt_isSome _ _ _ _ h

/-- Linking never touches entity nodes. -/
theorem link_entities (g : Graph) (now : Nat) (a b c : String)
    (ctx : Option String) :
    ((link_entity_to_newsletter g now a b c ctx).2).entities = g.entities := by
  unfold link_entity_to_newsletter
  cases h1 : lookupEnt g.entities (b, a) <;>
    cases h2 : lookupNl g.newsletters c <;>
      first
        | rfl
        | (cases h3 : findEdge g.mentions b a c <;> simp [h3])

/-- Linking never touches newsletter nodes. -/
theorem link_newsletters (g : Graph) (now : Nat) (a b c : String)
    (ctx : Option String) :
    ((link_entity_to_newsletter g now a b c ctx).2).newsletters
      = g.newsletters := by
  unfold link_entity_to_newsletter
  cases h1 : lookupEnt g.entities (b, a) <;>
    cases h2 : lookupNl g.newsletters c <;>
      first
        | rfl
        | (cases h3 : findEdge g.mentions b a c <;> simp [h3])

/-- Linking to a newsletter id that has no node leaves the relationships
untouched (the MATCH on the newsletter finds nothing). -/
theorem link_mentions_of_no_newsletter (g : Graph) (now : Nat)
    (a b c : String) (ctx : Option String)
    (h : lookupNl g.newsletters c = none) :
    ((link_entity_to_newsletter g now a b c ctx).2).mentions = g.mentions := by
  unfold link_entity_to_newsletter
  cases h1 : lookupEnt g.entities (b, a) <;> simp [h]

/-- When no MENTIONED_IN relationship matches, the filter underlying
`mentionCount` is empty. -/
theorem filter_nil_of_findEdge_none (l : List MentionEdge)
    (etype ename nid : String)
    (h : findEdge l etype ename nid = none) :
    l.filter (fun r => r.etype == etype && r.ename == ename && r.nid == nid)
      = [] := by
  induction l with
  | nil => rfl
  | cons r rest ih =>
      by_cases hc : r.etype = etype ∧ r.ename = ename ∧ r.nid = nid
      · simp [findEdge, hc] at h
      · simp only [findEdge, if_neg hc] at h
        rw [List.filter_cons]
        have hb : (r.etype == etype && r.ename == ename && r.nid == nid)
            = false := by
          rcases Decidable.not_and_iff_or_not.mp hc with h1 | h16
          · simp [h1]
          · rcases Decidable.not_and_iff_or_not.mp h16 with h2 | h3
            · simp [h2]
            · simp [h3]
        rw [hb]
        simp only [Bool.false_eq_true, if_false]
        exact ih h

/-! ## Claim theorems -/

/-- C1: upserting a candidate whose (type, name) key is absent does create
the node with `mention_count = 1` and the candidate confidence, but the
`operation` field of the returned record is "updated", not "created": the
ON CREATE branch of the source query never sets `last_seen`, so the RETURN
clause's `CASE WHEN e.created_at = e.last_seen` compares with NULL and falls
through to the ELSE branch.  Evaluated here at a concrete fresh key on the
empty graph. -/
theorem C1_fresh_upsert_reports_updated :
    ((create_or_update_entity {} 5 entOrg).1).node.mention_count = 1 ∧
    ((create_or_update_entity {} 5 entOrg).1).node.confidence
      = entOrg.confidence ∧
    ((create_or_update_entity {} 5 entOrg).1).operation = "updated" := by
  decide

/-- C2: stored confidence is monotonically non-decreasing across upserts.
On a repeat sighting the stored node's confidence becomes the maximum of the
existing and the candidate confidence and the mention count grows by exactly
one; and upserting two valid candidates with the same (type, name) onto a
fresh key stores confidence `max c1.confidence c2.confidence` and mention
count 2. -/
theorem C2_confidence_monotone_upserts
    (g : Graph) (t t1 t2 : Nat) (e c1 c2 : Entity) (old : EntityNode) :
    (lookupEnt g.entities (e.type, e.name) = some old →
      ((create_or_update_entity g t e).1).node.confidence
          = max old.confidence e.confidence ∧
      ((create_or_update_entity g t e).1).node.mention_count
          = old.mention_count + 1 ∧
      old.confidence ≤ ((create_or_update_entity g t e).1).node.confidence ∧
      lookupEnt ((create_or_update_entity g t e).2).entities (e.type, e.name)
          = some ((create_or_update_entity g t e).1).node)
    ∧
    (lookupEnt g.entities (c1.type, c1.name) = none →
     c2.type = c1.type → c2.name = c1.name →
      lookupEnt ((create_or_update_entity
            ((create_or_update_entity g t1 c1).2) t2 c2).2).entities
          (c1.type, c1.name)
        = some ⟨t1, some t2, max c1.confidence c2.confidence, c1.aliases, 2,
                propsJson c1⟩) := by
  constructor
  · intro h
    refine ⟨?_, ?_, ?_, lookupEnt_upsert_self g t e⟩
    · rw [upsert_matched g t e old h]
      rfl
    · rw [upsert_matched g t e old h]
      rfl
    · rw [upsert_matched g t e old h]
      exact le_max_left _ _
  · intro hf hty hnm
    have h1 := upsert_fresh g t1 c1 hf
    have hl : lookupEnt ((create_or_update_entity g t1 c1).2).entities
        (c2.type, c2.name)
        = some ⟨t1, none, c1.confidence, c1.aliases, 1, propsJson c1⟩ := by
      rw [h1]
      simp [lookupEnt, hty, hnm]
    rw [upsert_matched _ t2 c2 _ hl]
    simp only [hty, hnm]
    have := lookupEnt_updateEnt_self
      ((create_or_update_entity g t1 c1).2).entities (c1.type, c1.name)
      (matchedNode ⟨t1, none, c1.confidence, c1.aliases, 1, propsJson c1⟩ t2 c2)
      ⟨t1, none, c1.confidence, c1.aliases, 1, propsJson c1⟩ (by
        rw [h1]
        simp [lookupEnt])
    rw [this]
    simp [matchedNode]

/-- Witness for C2 at concrete inputs: a repeat sighting of `entOrg` on
`gOrg`, and the two-candidate scenario `entAda1` then `entAda2` on a graph
without that person. -/
theorem C2_witness :
    (((create_or_update_entity gOrg 9 entOrg).1).node.confidence
        = max nodeOrg.confidence entOrg.confidence ∧
     ((create_or_update_entity gOrg 9 entOrg).1).node.mention_count
        = nodeOrg.mention_count + 1 ∧
     nodeOrg.confidence
        ≤ ((create_or_update_entity gOrg 9 entOrg).1).node.confidence ∧
     lookupEnt ((create_or_update_entity gOrg 9 entOrg).2).entities
        ("Organization", "OpenAI")
        = some ((create_or_update_entity gOrg 9 entOrg).1).node)
    ∧
    lookupEnt ((create_or_update_entity
          ((create_or_update_entity gOrg 4 entAda1).2) 5 entAda2).2).entities
        ("Person", "Ada")
      = some ⟨4, some 5, max entAda1.confidence entAda2.confidence,
              entAda1.aliases, 2, propsJson entAda1⟩ := by
  have h := C2_confidence_monotone_upserts gOrg 9 4 5 entOrg entAda1 entAda2
    nodeOrg
  exact ⟨h.1 (by decide), h.2 (by decide) rfl rfl⟩

/-- C7: on a repeat sighting (the ON MATCH branch) the stored node changes
only in `last_seen`, `mention_count` and `confidence`; its `aliases`,
`created_at` and serialised `properties_json` stay exactly as they were at
creation time — the new candidate's aliases are never merged in. -/
theorem C7_on_match_frame (g : Graph) (t : Nat) (e : Entity)
    (old : EntityNode)
    (h : lookupEnt g.entities (e.type, e.name) = some old) :
    ((create_or_update_entity g t e).1).node = matchedNode old t e ∧
    ((create_or_update_entity g t e).1).node.aliases = old.aliases ∧
    ((create_or_update_entity g t e).1).node.created_at = old.created_at ∧
    ((create_or_update_entity g t e).1).node.properties_json
        = old.properties_json ∧
    lookupEnt ((create_or_update_entity g t e).2).entities (e.type, e.name)
        = some (matchedNode old t e) := by
  have hm := upsert_matched g t e old h
  refine ⟨?_, ?_, ?_, ?_, ?_⟩
  · rw [hm]
  · rw [hm]
    rfl
  · rw [hm]
    rfl
  · rw [hm]
    rfl
  · rw [hm]
    exact lookupEnt_updateEnt_self _ _ _ _ h

/-- Witness for C7: a repeat sighting of `entOrg` (carrying no alias "OAI")
on `gOrg` leaves aliases, created_at and properties_json untouched. -/
theorem C7_witness :
    ((create_or_update_entity gOrg 9 entOrg).1).node
        = matchedNode nodeOrg 9 entOrg ∧
    ((create_or_update_entity gOrg 9 entOrg).1).node.aliases
        = nodeOrg.aliases ∧
    ((create_or_update_entity gOrg 9 entOrg).1).node.created_at
        = nodeOrg.created_at ∧
    ((create_or_update_entity gOrg 9 entOrg).1).node.properties_json
        = nodeOrg.properties_json ∧
    lookupEnt ((create_or_update_entity gOrg 9 entOrg).2).entities
        ("Organization", "OpenAI") = some (matchedNode nodeOrg 9 entOrg) :=
  C7_on_match_frame gOrg 9 entOrg nodeOrg (by decide)

/-- C3: linking the same (entity, newsletter) pair twice with identical
arguments leaves exactly one MENTIONED_IN relationship, the second call
changes nothing, and the surviving relationship carries the date of the
first call and the context passed to it (first-write-wins). -/
theorem C3_link_idempotent (g : Graph) (t1 t2 : Nat)
    (ename etype nid : String) (ctx : Option String) (en : EntityNode)
    (nl : NewsletterNode)
    (hent : lookupEnt g.entities (etype, ename) = some en)
    (hnl : lookupNl g.newsletters nid = some nl)
    (hedge : findEdge g.mentions etype ename nid = none) :
    mentionCount (link_entity_to_newsletter
        ((link_entity_to_newsletter g t1 ename etype nid ctx).2)
        t2 ename etype nid ctx).2 etype ename nid = 1 ∧
    (link_entity_to_newsletter
        ((link_entity_to_newsletter g t1 ename etype nid ctx).2)
        t2 ename etype nid ctx).1
      = some ⟨etype, ename, nid, t1, ctx⟩ ∧
    (link_entity_to_newsletter
        ((link_entity_to_newsletter g t1 ename etype nid ctx).2)
        t2 ename etype nid ctx).2
      = (link_entity_to_newsletter g t1 ename etype nid ctx).2 := by
  have hr : link_entity_to_newsletter g t1 ename etype nid ctx
      = (some ⟨etype, ename, nid, t1, ctx⟩,
         { g with mentions := ⟨etype, ename, nid, t1, ctx⟩ :: g.mentions }) := by
    simp [link_entity_to_newsletter, hent, hnl, hedge]
  have hfind : findEdge (⟨etype, ename, nid, t1, ctx⟩ :: g.mentions)
      etype ename nid = some ⟨etype, ename, nid, t1, ctx⟩ := by
    simp [findEdge]
  have hr2 : link_entity_to_newsletter
      { g with mentions := ⟨etype, ename, nid, t1, ctx⟩ :: g.mentions }
      t2 ename etype nid ctx
      = (some ⟨etype, ename, nid, t1, ctx⟩,
         { g with mentions := ⟨etype, ename, nid, t1, ctx⟩ :: g.mentions }) := by
    simp [link_entity_to_newsletter, hent, hnl, hfind]
  rw [hr, hr2]
  refine ⟨?_, rfl, rfl⟩
  have hz := filter_nil_of_findEdge_none g.mentions etype ename nid hedge
  simp [mentionCount, List.filter_cons, hz]

/-- Witness for C3: linking OpenAI to newsletter N1 twice on `gLink`. -/
theorem C3_witness :
    mentionCount (link_entity_to_newsletter
        ((link_entity_to_newsletter gLink 10 "OpenAI" "Organization" "N1"
            (some "ctx")).2)
        20 "OpenAI" "Organization" "N1" (some "ctx")).2
        "Organization" "OpenAI" "N1" = 1 ∧
    (link_entity_to_newsletter
        ((link_entity_to_newsletter gLink 10 "OpenAI" "Organization" "N1"
            (some "ctx")).2)
        20 "OpenAI" "Organization" "N1" (some "ctx")).1
      = some ⟨"Organization", "OpenAI", "N1", 10, some "ctx"⟩ ∧
    (link_entity_to_newsletter
        ((link_entity_to_newsletter gLink 10 "OpenAI" "Organization" "N1"
            (some "ctx")).2)
        20 "OpenAI" "Organization" "N1" (some "ctx")).2
      = (link_entity_to_newsletter gLink 10 "OpenAI" "Organization" "N1"
            (some "ctx")).2 :=
  C3_link_idempotent gLink 10 20 "OpenAI" "Organization" "N1" (some "ctx")
    nodeOrg nlNode (by decide) (by decide) (by decide)

/-- The retry loop invokes the operation at most `fuel` times. -/
theorem retryAux_calls_le {ε α : Type} (f : Nat → Except ε α)
    (maxRetries : Nat) :
    ∀ fuel attempt, (retryAux f maxRetries attempt fuel).calls ≤ fuel := by
  intro fuel
  induction fuel with
  | zero =>
      intro attempt
      simp [retryAux]
  | succ n ih =>
      intro attempt
      rw [retryAux]
      cases hf : f attempt with
      | ok a => simp
      | error e =>
          by_cases hgt : attempt + 1 > maxRetries
          · simp [hgt]
          · simp only [if_neg hgt]
            have hrec := ih (attempt + 1)
            show (retryAux f maxRetries (attempt + 1) n).calls + 1 ≤ n + 1
            omega

/-- When every attempt in range raises, the loop entered at `attempt` with
the matching fuel makes exactly `fuel + 1` calls, sleeps between them, and
re-raises the error of attempt `maxRetries`, the last one. -/
theorem retryAux_all_errors {ε α : Type} (f : Nat → Except ε α)
    (maxRetries : Nat) (es : Nat → ε) :
    ∀ fuel attempt, attempt + fuel = maxRetries →
      (∀ i, attempt ≤ i → i ≤ maxRetries → f i = Except.error (es i)) →
      retryAux f maxRetries attempt (fuel + 1)
        = ⟨some (Except.error (es maxRetries)), fuel + 1, fuel⟩ := by
  intro fuel
  induction fuel with
  | zero =>
      intro attempt heq h
      have ha : attempt = maxRetries := by omega
      subst ha
      rw [retryAux, h attempt le_rfl le_rfl]
      simp
  | succ n ih =>
      intro attempt heq h
      rw [retryAux, h attempt le_rfl (by omega)]
      have hlt : ¬ (attempt + 1 > maxRetries) := by omega
      simp only [if_neg hlt]
      rw [ih (attempt + 1) (by omega) (fun i h1 h2 => h i (by omega) h2)]

/-- C4: for every `max_retries = m`, one call of the retry wrapper invokes
the wrapped operation at most `m + 1` times; when every invocation raises,
the error of the final ((m+1)-th) attempt is re-raised after exactly `m + 1`
calls; and with `m = 0` exactly one attempt is made and `time.sleep` never
runs. -/
theorem C4_retry_bounds {ε α : Type} (m : Nat) (f : Nat → Except ε α)
    (es : Nat → ε) :
    (retry_with_exponential_backoff m f).calls ≤ m + 1 ∧
    ((∀ i, i ≤ m → f i = Except.error (es i)) →
      (retry_with_exponential_backoff m f).result
          = some (Except.error (es m)) ∧
      (retry_with_exponential_backoff m f).calls = m + 1) ∧
    ((retry_with_exponential_backoff 0 f).calls = 1 ∧
     (retry_with_exponential_backoff 0 f).sleeps = 0) := by
  refine ⟨retryAux_calls_le f m (m + 1) 0, ?_, ?_⟩
  · intro h
    have := retryAux_all_errors f m es m 0 (by omega) (fun i _ h2 => h i h2)
    rw [retry_with_exponential_backoff, this]
    exact ⟨rfl, rfl⟩
  · rw [retry_with_exponential_backoff, retryAux]
    cases hf : f 0 with
    | ok a => simp
    | error e => simp

/-- Witness for C4 at `m = 1` and an operation that always raises "boom":
two calls in total, the final error surfaced. -/
theorem C4_witness :
    (retry_with_exponential_backoff 1
        (fun _ => (Except.error "boom" : Except String Nat))).result
      = some (Except.error "boom") ∧
    (retry_with_exponential_backoff 1
        (fun _ => (Except.error "boom" : Except String Nat))).calls = 2 :=
  (C4_retry_bounds 1 (fun _ => Except.error "boom")
    (fun _ => "boom")).2.1 (fun _ _ => rfl)

/-- Concatenation of character lists agrees with string concatenation. -/
theorem String_mk_append (a b : List Char) :
    String.mk a ++ String.mk b = String.mk (a ++ b) := rfl

/-- C6: whenever DNS resolution of the configured host fails, `connect`
returns failure having attempted only the DNS phase: no TCP probe, no driver
creation, no round-trip test query. -/
theorem C6_dns_failure_stops_connect (env : ConnectEnv) (msg : String)
    (h : env.dns = Except.error msg) :
    connect env = (false, [ConnectPhase.dns]) ∧
    ConnectPhase.tcp ∉ (connect env).2 ∧
    ConnectPhase.driver ∉ (connect env).2 ∧
    ConnectPhase.testQuery ∉ (connect env).2 := by
  have hc : connect env = (false, [ConnectPhase.dns]) := by
    simp [connect, h]
  refine ⟨hc, ?_, ?_, ?_⟩ <;> rw [hc] <;> decide

/-- Witness for C6: the environment `envDnsFail` with a failing resolver. -/
theorem C6_witness :
    connect envDnsFail = (false, [ConnectPhase.dns]) ∧
    ConnectPhase.tcp ∉ (connect envDnsFail).2 ∧
    ConnectPhase.driver ∉ (connect envDnsFail).2 ∧
    ConnectPhase.testQuery ∉ (connect envDnsFail).2 :=
  C6_dns_failure_stops_connect envDnsFail "gaierror" rfl

/-- C9: with no driver, `execute_query` fails fast — the session never runs
the query, no retry happens (the call count is 0, and in every case at most
1), and the outcome is the explicit not-connected error record; when a query
fails against a live connection the emitted error record carries exactly the
first 100 characters of the query text — a prefix of the query — and the
stringified exception, and no field of it holds the parameter values. -/
theorem C9_execute_query (ρ : Type)
    (run : String → List (String × String) → Except String ρ)
    (query : String) (params : List (String × String)) (e : String) :
    (execute_query false run query params).rows = none ∧
    (execute_query false run query params).dbCalls = 0 ∧
    (execute_query false run query params).logs
        = [⟨"No Neo4j connection", none, none⟩] ∧
    (∀ b : Bool, (execute_query b run query params).dbCalls ≤ 1) ∧
    (run query params = Except.error e →
      execute_query true run query params
        = ⟨none, [⟨"Query execution failed", some (pyTruncate query 100),
                   some e⟩], 1⟩ ∧
      query = pyTruncate query 100 ++ String.mk (query.toList.drop 100) ∧
      (pyTruncate query 100).length ≤ 100) := by
  refine ⟨rfl, rfl, rfl, ?_, ?_⟩
  · intro b
    cases b with
    | false => exact Nat.zero_le 1
    | true =>
        cases hr : run query params <;> simp [execute_query, hr]
  · intro herr
    refine ⟨by simp [execute_query, herr], ?_, ?_⟩
    · cases query with
      | mk data =>
          show String.mk data
            = String.mk (data.take 100) ++ String.mk (data.drop 100)
          rw [String_mk_append, List.take_append_drop]
    · have hl : (pyTruncate query 100).length
          = (query.toList.take 100).length := rfl
      rw [hl, List.length_take]
      exact min_le_left _ _

/-- The candidate loop keeps exactly the candidates meeting the threshold:
the `continue` on `confidence < threshold` is a filter. -/
theorem buildEntities_eq_filter (thr : Rat) (l : List Entity) :
    buildEntities thr l
      = l.filter (fun c => decide (thr ≤ c.confidence)) := by
  induction l with
  | nil => rfl
  | cons c rest ih =>
      by_cases hc : c.confidence < thr
      · have hd : decide (thr ≤ c.confidence) = false :=
          decide_eq_false (not_le.mpr hc)
        simp [buildEntities, List.filter_cons, hc, hd, ih]
      · have hd : decide (thr ≤ c.confidence) = true :=
          decide_eq_true (not_lt.mp hc)
        simp [buildEntities, List.filter_cons, hc, hd, ih]

/-- Capping returns a sublist: every returned entity was in the input. -/
theorem mem_capEntities (maxE : Nat) (l : List Entity) (e : Entity)
    (h : e ∈ capEntities maxE l) : e ∈ l := by
  by_cases hlen : l.length > maxE
  · rw [capEntities, if_pos hlen] at h
    have h1 := List.take_subset maxE (sortByConfDesc l) h
    rw [sortByConfDesc] at h1
    exact List.mem_mergeSort.mp h1
  · rwa [capEntities, if_neg hlen] at h

/-- The capped list never exceeds the cap. -/
theorem length_capEntities (maxE : Nat) (l : List Entity) :
    (capEntities maxE l).length ≤ maxE := by
  by_cases hlen : l.length > maxE
  · rw [capEntities, if_pos hlen, List.length_take]
    exact min_le_left _ _
  · rw [capEntities, if_neg hlen]
    omega

/-- The sort used by the cap orders confidences descending. -/
theorem sortByConfDesc_pairwise (l : List Entity) :
    List.Pairwise (fun a b => b.confidence ≤ a.confidence)
      (sortByConfDesc l) := by
  have htrans : ∀ a b c : Entity,
      decide (b.confidence ≤ a.confidence) = true →
      decide (c.confidence ≤ b.confidence) = true →
      decide (c.confidence ≤ a.confidence) = true := by
    intro a b c h1 h2
    exact decide_eq_true
      (le_trans (of_decide_eq_true h2) (of_decide_eq_true h1))
  have htotal : ∀ a b : Entity,
      (decide (b.confidence ≤ a.confidence)
        || decide (a.confidence ≤ b.confidence)) = true := by
    intro a b
    rcases le_total b.confidence a.confidence with h | h <;> simp [h]
  have hs := @List.sorted_mergeSort Entity
    (fun a b => decide (b.confidence ≤ a.confidence)) htrans htotal l
  exact hs.imp (fun h => of_decide_eq_true h)

/-- C8: the returned entity list of `extract_entities` is produced by two
separate steps in source order — first the below-threshold candidates are
dropped (a filter), then the survivors are capped at the configured maximum
keeping the highest-confidence ones (stable sort descending, then take) —
hence every returned entity meets the threshold and the result never exceeds
the cap; when the cap bites, every kept entity has confidence at least that
of every dropped one. -/
theorem C8_filter_then_cap (thr : Rat) (maxE : Nat) (l : List Entity) :
    postprocessCandidates thr maxE l
        = capEntities maxE (buildEntities thr l) ∧
    buildEntities thr l
        = l.filter (fun c => decide (thr ≤ c.confidence)) ∧
    (∀ e ∈ postprocessCandidates thr maxE l, thr ≤ e.confidence) ∧
    (postprocessCandidates thr maxE l).length ≤ maxE ∧
    ((buildEntities thr l).length ≤ maxE →
      postprocessCandidates thr maxE l = buildEntities thr l) ∧
    ((buildEntities thr l).length > maxE →
      postprocessCandidates thr maxE l
        = (sortByConfDesc (buildEntities thr l)).take maxE) ∧
    List.Pairwise (fun a b => b.confidence ≤ a.confidence)
        (sortByConfDesc (buildEntities thr l)) ∧
    ((buildEntities thr l).length > maxE →
      ∀ x ∈ postprocessCandidates thr maxE l,
        ∀ y ∈ (sortByConfDesc (buildEntities thr l)).drop maxE,
          y.confidence ≤ x.confidence) := by
  have hcap6 : (buildEntities thr l).length > maxE →
      postprocessCandidates thr maxE l
        = (sortByConfDesc (buildEntities thr l)).take maxE := by
    intro hlen
    rw [postprocessCandidates, capEntities, if_pos hlen]
  refine ⟨rfl, buildEntities_eq_filter thr l, ?_, ?_, ?_, hcap6,
    sortByConfDesc_pairwise _, ?_⟩
  · intro e he
    have hmem := mem_capEntities maxE (buildEntities thr l) e he
    rw [buildEntities_eq_filter] at hmem
    exact of_decide_eq_true (List.mem_filter.mp hmem).2
  · exact length_capEntities maxE (buildEntities thr l)
  · intro hle
    rw [postprocessCandidates, capEntities, if_neg (not_lt.mpr hle)]
  · intro hlen x hx y hy
    have hpair := sortByConfDesc_pairwise (buildEntities thr l)
    rw [← List.take_append_drop maxE (sortByConfDesc (buildEntities thr l))]
      at hpair
    have h3 := (List.pairwise_append.mp hpair).2.2
    rw [hcap6 hlen] at hx
    exact h3 x hx y hy

/-- Witness for C8 on `lFix` with threshold 7/10: with cap 2 the kept entity
`entAda2` meets the threshold and outranks the dropped `entAda1`; with cap 5
the cap is a no-op. -/
theorem C8_witness :
    q710 ≤ entAda2.confidence ∧
    entAda1.confidence ≤ entAda2.confidence ∧
    postprocessCandidates q710 5 lFix = buildEntities q710 lFix :=
  ⟨(C8_filter_then_cap q710 2 lFix).2.2.1 entAda2 (by
      simp +decide [postprocessCandidates, capEntities, buildEntities,
        sortByConfDesc, List.mergeSort, List.merge, lFix]),
   (C8_filter_then_cap q710 2 lFix).2.2.2.2.2.2.2 (by decide) entAda2 (by
      simp +decide [postprocessCandidates, capEntities, buildEntities,
        sortByConfDesc, List.mergeSort, List.merge, lFix]) entAda1 (by
      simp +decide [buildEntities, sortByConfDesc, List.mergeSort,
        List.merge, lFix]),
   (C8_filter_then_cap q710 5 lFix).2.2.2.2.1 (by decide)⟩

/-- Witness for C9: the always-failing session `runFail` on query `qFix`
with parameters `pFix`. -/
theorem C9_witness :
    execute_query true runFail qFix pFix
      = ⟨none, [⟨"Query execution failed", some (pyTruncate qFix 100),
                 some "SyntaxError"⟩], 1⟩ ∧
    qFix = pyTruncate qFix 100 ++ String.mk (qFix.toList.drop 100) ∧
    (pyTruncate qFix 100).length ≤ 100 :=
  (C9_execute_query Nat runFail qFix pFix "SyntaxError").2.2.2.2 rfl

/-- `create_newsletter_node` always returns a row: the MERGE either matches
or creates the newsletter node. -/
theorem create_newsletter_node_isNone (g : Graph) (now : Nat) (nid : String)
    (subject sender : String) (received : Option String) (clen : Nat) :
    ((create_newsletter_node g now nid subject sender received clen).1).isNone
      = false := by
  cases h : lookupNl g.newsletters nid <;>
    simp [create_newsletter_node, h]

/-- C5 counterexample: a run whose extractor call raises while everything
else succeeds returns status "success" with zero candidates — but its
returned errors list is empty, containing no warning about the extraction
failure, contrary to the claim. -/
theorem C5_counterexample :
    ((process_newsletter q710 100 envThrow {} "N1" 3 "subj" "from" none
        10).1).status = "success" ∧
    ((process_newsletter q710 100 envThrow {} "N1" 3 "subj" "from" none
        10).1).entities_extracted = 0 ∧
    ((process_newsletter q710 100 envThrow {} "N1" 3 "subj" "from" none
        10).1).errors = [] := by
  decide

/-- C5 (amended): if the extractor call throws or returns unparseable
output, processing still returns a response object with status "success"
(no unhandled exception) and the run is treated as having zero candidates;
however the returned errors list gains no entry about the extraction failure
— it holds only the newsletter-node error when that step also fails, and is
empty otherwise. -/
theorem C5_extraction_failure_swallowed (thr : Rat) (maxE : Nat)
    (env : PipeEnv) (g : Graph) (nid : String) (now : Nat)
    (subject sender : String) (received : Option String) (clen : Nat)
    (hclean : env.cleanedText ≠ "")
    (hinit : env.extractorInit = true)
    (hfail : (∃ m, env.extractor = ExtractorOutcome.throws m) ∨
             (∃ raw, env.extractor = ExtractorOutcome.unparseable raw)) :
    ((process_newsletter thr maxE env g nid now subject sender received
        clen).1).status = "success" ∧
    ((process_newsletter thr maxE env g nid now subject sender received
        clen).1).entities_extracted = 0 ∧
    ((process_newsletter thr maxE env g nid now subject sender received
        clen).1).errors
      = (if env.failNewsletterCreate
         then ["Failed to create newsletter node"] else []) := by
  have hee : extract_entities thr maxE env.extractor = [] := by
    rcases hfail with ⟨m, hm⟩ | ⟨r, hr⟩
    · rw [hm]
      rfl
    · rw [hr]
      rfl
  cases hb : env.failNewsletterCreate <;>
    simp [process_newsletter, hclean, hinit, hee, hb,
      create_newsletter_node_isNone]

/-- Witness for C5 at the concrete run `envThrow`. -/
theorem C5_witness :
    ((process_newsletter q710 100 envThrow gOrg "N2" 4 "s2" "f2" none
        7).1).status = "success" ∧
    ((process_newsletter q710 100 envThrow gOrg "N2" 4 "s2" "f2" none
        7).1).entities_extracted = 0 ∧
    ((process_newsletter q710 100 envThrow gOrg "N2" 4 "s2" "f2" none
        7).1).errors = [] :=
  C5_extraction_failure_swallowed q710 100 envThrow gOrg "N2" 4 "s2" "f2"
    none 7 (by decide) rfl (Or.inl ⟨"boom", rfl⟩)

/-- One entity-processing step never touches newsletter nodes. -/
theorem stepEntity_newsletters (nid : String) (now : Nat)
    (acc : Graph × Nat × Nat × List (String × Nat)) (e : Entity) :
    ((stepEntity nid now acc e).1).newsletters = acc.1.newsletters := by
  obtain ⟨g, newC, updC, summ⟩ := acc
  rcases hup : create_or_update_entity g now e with ⟨r1, g1⟩
  rcases hlk : link_entity_to_newsletter g1 now e.name e.type nid e.context
    with ⟨r2, g2⟩
  have h1 : g1.newsletters = g.newsletters := by
    have := upsert_newsletters g now e
    rwa [hup] at this
  have h2 : g2.newsletters = g1.newsletters := by
    have := link_newsletters g1 now e.name e.type nid e.context
    rwa [hlk] at this
  simp [stepEntity, hup, hlk, h1, h2]

/-- When the target newsletter node is absent, one entity-processing step
adds no MENTIONED_IN relationship. -/
theorem stepEntity_mentions (nid : String) (now : Nat)
    (acc : Graph × Nat × Nat × List (String × Nat)) (e : Entity)
    (h : lookupNl acc.1.newsletters nid = none) :
    ((stepEntity nid now acc e).1).mentions = acc.1.mentions := by
  obtain ⟨g, newC, updC, summ⟩ := acc
  rcases hup : create_or_update_entity g now e with ⟨r1, g1⟩
  rcases hlk : link_entity_to_newsletter g1 now e.name e.type nid e.context
    with ⟨r2, g2⟩
  have h1 : g1.newsletters = g.newsletters := by
    have := upsert_newsletters g now e
    rwa [hup] at this
  have hm1 : g1.mentions = g.mentions := by
    have := upsert_mentions g now e
    rwa [hup] at this
  have hm2 : g2.mentions = g1.mentions := by
    have := link_mentions_of_no_newsletter g1 now e.name e.type nid e.context
      (by rw [h1]; exact h)
    rwa [hlk] at this
  simp [stepEntity, hup, hlk, hm1, hm2]

/-- One entity-processing step preserves the presence of every entity key. -/
theorem stepEntity_presence (nid : String) (now : Nat)
    (acc : Graph × Nat × Nat × List (String × Nat)) (e : Entity)
    (k : String × String) (h : (lookupEnt acc.1.entities k).isSome) :
    (lookupEnt ((stepEntity nid now acc e).1).entities k).isSome := by
  obtain ⟨g, newC, updC, summ⟩ := acc
  rcases hup : create_or_update_entity g now e with ⟨r1, g1⟩
  rcases hlk : link_entity_to_newsletter g1 now e.name e.type nid e.context
    with ⟨r2, g2⟩
  have h1 : (lookupEnt g1.entities k).isSome := by
    have := lookupEnt_upsert_isSome g now e k h
    rwa [hup] at this
  have h2 : g2.entities = g1.entities := by
    have := link_entities g1 now e.name e.type nid e.context
    rwa [hlk] at this
  simp [stepEntity, hup, hlk, h2, h1]

/-- One entity-processing step leaves its own entity key present. -/
theorem stepEntity_self_present (nid : String) (now : Nat)
    (acc : Graph × Nat × Nat × List (String × Nat)) (e : Entity) :
    (lookupEnt ((stepEntity nid now acc e).1).entities
      (e.type, e.name)).isSome := by
  obtain ⟨g, newC, updC, summ⟩ := acc
  rcases hup : create_or_update_entity g now e with ⟨r1, g1⟩
  rcases hlk : link_entity_to_newsletter g1 now e.name e.type nid e.context
    with ⟨r2, g2⟩
  have h1 : (lookupEnt g1.entities (e.type, e.name)).isSome := by
    have := lookupEnt_upsert_self g now e
    rw [hup] at this
    simp [this]
  have h2 : g2.entities = g1.entities := by
    have := link_entities g1 now e.name e.type nid e.context
    rwa [hlk] at this
  simp [stepEntity, hup, hlk, h2, h1]

/-- The whole entity loop never touches newsletter nodes. -/
theorem foldl_step_newsletters (nid : String) (now : Nat)
    (es : List Entity) :
    ∀ acc : Graph × Nat × Nat × List (String × Nat),
      ((es.foldl (stepEntity nid now) acc).1).newsletters
        = acc.1.newsletters := by
  induction es with
  | nil => intro acc; rfl
  | cons e rest ih =>
      intro acc
      rw [List.foldl_cons, ih (stepEntity nid now acc e),
        stepEntity_newsletters]

/-- With the target newsletter node absent, the whole entity loop adds no
MENTIONED_IN relationship. -/
theorem foldl_step_mentions (nid : String) (now : Nat) (es : List Entity) :
    ∀ acc : Graph × Nat × Nat × List (String × Nat),
      lookupNl acc.1.newsletters nid = none →
      ((es.foldl (stepEntity nid now) acc).1).mentions = acc.1.mentions := by
  induction es with
  | nil => intro acc _; rfl
  | cons e rest ih =>
      intro acc h
      rw [List.foldl_cons,
        ih (stepEntity nid now acc e) (by rw [stepEntity_newsletters]; exact h),
        stepEntity_mentions nid now acc e h]

/-- The entity loop preserves the presence of every entity key. -/
theorem foldl_step_presence (nid : String) (now : Nat) (es : List Entity) :
    ∀ acc : Graph × Nat × Nat × List (String × Nat),
      ∀ k : String × String, (lookupEnt acc.1.entities k).isSome →
      (lookupEnt ((es.foldl (stepEntity nid now) acc).1).entities k).isSome := by
  induction es with
  | nil => intro acc k h; exact h
  | cons e rest ih =>
      intro acc k h
      rw [List.foldl_cons]
      exact ih (stepEntity nid now acc e) k
        (stepEntity_presence nid now acc e k h)

/-- After the entity loop, every processed entity key is present in the
graph: the loop upserted each of them. -/
theorem foldl_step_mem (nid : String) (now : Nat) (es : List Entity) :
    ∀ acc : Graph × Nat × Nat × List (String × Nat),
      ∀ e ∈ es,
      (lookupEnt ((es.foldl (stepEntity nid now) acc).1).entities
        (e.type, e.name)).isSome := by
  induction es with
  | nil => intro acc e he; cases he
  | cons a rest ih =>
      intro acc e he
      rw [List.foldl_cons]
      rcases List.mem_cons.mp he with he1 | he2
      · subst he1
        exact foldl_step_presence nid now rest (stepEntity nid now acc e)
          (e.type, e.name) (stepEntity_self_present nid now acc e)
      · exact ih (stepEntity nid now acc a) e he2

/-- C10: when the newsletter-node MERGE fails, `process_newsletter` appends
"Failed to create newsletter node" to the errors list but keeps going: every
extracted entity is still upserted into the graph, and the response status
is still "success" — even though neither the newsletter node nor any of its
MENTIONED_IN relationships were written. -/
theorem C10_newsletter_failure_still_success (thr : Rat) (maxE : Nat)
    (env : PipeEnv) (g : Graph) (nid : String) (now : Nat)
    (subject sender : String) (received : Option String) (clen : Nat)
    (hclean : env.cleanedText ≠ "")
    (hinit : env.extractorInit = true)
    (hfail : env.failNewsletterCreate = true)
    (hnid : lookupNl g.newsletters nid = none) :
    ((process_newsletter thr maxE env g nid now subject sender received
        clen).1).status = "success" ∧
    "Failed to create newsletter node"
        ∈ ((process_newsletter thr maxE env g nid now subject sender received
            clen).1).errors ∧
    (∀ e ∈ extract_entities thr maxE env.extractor,
      (lookupEnt ((process_newsletter thr maxE env g nid now subject sender
          received clen).2).entities (e.type, e.name)).isSome) ∧
    lookupNl ((process_newsletter thr maxE env g nid now subject sender
        received clen).2).newsletters nid = none ∧
    ((process_newsletter thr maxE env g nid now subject sender received
        clen).2).mentions = g.mentions := by
  have hnl : ((extract_entities thr maxE env.extractor).foldl
      (stepEntity nid now) (g, 0, 0, initialSummary)).1.newsletters
      = g.newsletters :=
    foldl_step_newsletters nid now _ (g, 0, 0, initialSummary)
  refine ⟨?_, ?_, ?_, ?_, ?_⟩ <;>
    simp only [process_newsletter, if_neg hclean, hinit, hfail,
      Bool.true_eq_false, if_neg (by exact fun h => h.elim : ¬False),
      if_true, Option.isNone_none]
  · simp
  · intro e he
    exact foldl_step_mem nid now _ (g, 0, 0, initialSummary) e he
  · rw [hnl]
    exact hnid
  · exact foldl_step_mentions nid now _ (g, 0, 0, initialSummary) hnid

/-- Witness for C10 at the concrete run `envNlFail`: two parsed candidates,
a failing newsletter MERGE, starting from the empty graph. -/
theorem C10_witness :
    ((process_newsletter q710 100 envNlFail {} "N1" 3 "subj" "from" none
        10).1).status = "success" ∧
    "Failed to create newsletter node"
        ∈ ((process_newsletter q710 100 envNlFail {} "N1" 3 "subj" "from"
            none 10).1).errors ∧
    (∀ e ∈ extract_entities q710 100 envNlFail.extractor,
      (lookupEnt ((process_newsletter q710 100 envNlFail {} "N1" 3 "subj"
          "from" none 10).2).entities (e.type, e.name)).isSome) ∧
    lookupNl ((process_newsletter q710 100 envNlFail {} "N1" 3 "subj" "from"
        none 10).2).newsletters "N1" = none ∧
    ((process_newsletter q710 100 envNlFail {} "N1" 3 "subj" "from" none
        10).2).mentions = [] :=
  C10_newsletter_failure_still_success q710 100 envNlFail {} "N1" 3 "subj"
    "from" none 10 (by decide) rfl rfl rfl

end Arrgh
